import Mathlib

/-!
Verification of `pkg/apis/core/v1beta1/validation/validation.go` of the
kubefed repository.  The validators there are pure functions from a
configuration object to an ordered list of field violations
(`field.ErrorList`).  This file gives a shallow embedding of those
functions and proves properties of them.

Modelling conventions:
* Go string lengths are byte lengths; all strings involved here are ASCII,
  so `String.length` (code points) agrees with them.
* A `time.Duration` is an `int64` count of nanoseconds; it is embedded as
  `Int`.
* `field.Path` is embedded as the list of its segments; `p.Child "s"`
  appends a segment.
* A `field.Error` carries its type, path, the offending value rendered as
  a string, and a detail message.  Error messages are taken over from the
  source with surrounding quote characters elided.
-/

namespace KubeFedValidation

/-- Embedding of `field.Path`: the ordered list of path segments. -/
abbrev FieldPath := List String

/-- Embedding of `field.NewPath(s)`. -/
def newPath (s : String) : FieldPath := [s]

/-- Embedding of `p.Child(s)`. -/
def FieldPath.child (p : FieldPath) (s : String) : FieldPath := p ++ [s]

/-- The four `field.ErrorType`s used by the validators. -/
inductive ErrorType where
  | required
  | invalid
  | notSupported
  | duplicate
deriving DecidableEq

/-- Embedding of `field.Error`. -/
structure FieldError where
  type : ErrorType
  field : FieldPath
  badValue : String
  detail : String
deriving DecidableEq

/-- Embedding of `field.Required(p, detail)`. -/
def fieldRequired (p : FieldPath) (detail : String) : FieldError :=
  ⟨ErrorType.required, p, "", detail⟩

/-- Embedding of `field.Invalid(p, value, detail)`; the offending value rendered as a string. -/
def fieldInvalid (p : FieldPath) (badValue : String) (detail : String) : FieldError :=
  ⟨ErrorType.invalid, p, badValue, detail⟩

/-- Embedding of `field.NotSupported(p, value, accepted)`: the detail enumerates the
full accepted set, as upstream does. -/
def fieldNotSupported (p : FieldPath) (badValue : String) (accepted : List String) : FieldError :=
  ⟨ErrorType.notSupported, p, badValue,
    "supported values: " ++ String.intercalate ", " accepted⟩

/-- Embedding of `field.Duplicate(p, value)`. -/
def fieldDuplicate (p : FieldPath) (badValue : String) : FieldError :=
  ⟨ErrorType.duplicate, p, badValue, ""⟩

/-! ### String helpers (external library `k8s.io/apimachinery/pkg/util/validation`) -/

/-- Lower-case ASCII letter. -/
def isLowerAlpha (c : Char) : Bool := 'a' ≤ c && c ≤ 'z'

/-- Lower-case ASCII letter or digit. -/
def isLowerAlnum (c : Char) : Bool := isLowerAlpha c || ('0' ≤ c && c ≤ '9')

/-- One DNS-1123 label: `[a-z0-9]([-a-z0-9]*[a-z0-9])?`,
phrased as: non-empty, first and last characters lower alphanumeric,
every character lower alphanumeric or `-`. -/
def dns1123LabelOK (s : String) : Bool :=
  match s.data with
  | [] => false
  | c :: cs =>
    isLowerAlnum c && (c :: cs).all (fun d => isLowerAlnum d || d = '-')
      && isLowerAlnum (cs.getLastD c)

/-- One DNS-1035 label: `[a-z]([-a-z0-9]*[a-z0-9])?`,
like a DNS-1123 label but the first character must be a letter. -/
def dns1035LabelOK (s : String) : Bool :=
  match s.data with
  | [] => false
  | c :: cs =>
    isLowerAlpha c && (c :: cs).all (fun d => isLowerAlnum d || d = '-')
      && isLowerAlnum (cs.getLastD c)

/-- Embedding of `strings.Split(s, ".")` over the character list. -/
def splitDotChars : List Char → List (List Char)
  | [] => [[]]
  | c :: rest =>
    if c = '.' then [] :: splitDotChars rest
    else
      match splitDotChars rest with
      | [] => [[c]]
      | h :: t => (c :: h) :: t

/-- Embedding of `strings.Split(s, ".")`. -/
def splitOnDot (s : String) : List String :=
  (splitDotChars s.data).map (fun l => String.mk l)

/-- DNS-1123 subdomain syntax: one or more DNS-1123 labels separated by dots. -/
def dns1123SubdomainOK (s : String) : Bool :=
  (splitOnDot s).all dns1123LabelOK

def DNS1123SubdomainMaxLength : Nat := 253
def DNS1035LabelMaxLength : Nat := 63

def dns1123SubdomainErrMsg : String :=
  "a lowercase RFC 1123 subdomain must consist of lower case alphanumeric characters, - or ., and must start and end with an alphanumeric character"

def dns1035LabelErrMsg : String :=
  "a DNS-1035 label must consist of lower case alphanumeric characters or -, start with an alphabetic character, and end with an alphanumeric character"

def maxLenErrMsg : String := "must be no more than the maximum allowed length"

/-- Embedding of `valutil.IsDNS1123Subdomain(value)`: an error string per failed check. -/
def IsDNS1123Subdomain (value : String) : List String :=
  (if value.length > DNS1123SubdomainMaxLength then [maxLenErrMsg] else [])
    ++ (if dns1123SubdomainOK value then [] else [dns1123SubdomainErrMsg])

/-- Embedding of `valutil.IsDNS1035Label(value)`: an error string per failed check. -/
def IsDNS1035Label (value : String) : List String :=
  (if value.length > DNS1035LabelMaxLength then [maxLenErrMsg] else [])
    ++ (if dns1035LabelOK value then [] else [dns1035LabelErrMsg])

/-- Embedding of `strings.ToLower`, restricted to the ASCII mapping actually exercised here. -/
def toLowerStr (s : String) : String := String.mk (s.data.map Char.toLower)

/-- Embedding of `apimachineryval.ValidateNonnegativeField(value, fldPath)`. -/
def ValidateNonnegativeField (value : Int) (fldPath : FieldPath) : List FieldError :=
  if value < 0 then
    [fieldInvalid fldPath (toString value) "must be greater than or equal to 0"]
  else []

/-! ### Enum string constants

The constant declarations live in packages of this repository and of its
dependencies that are not part of the validation source file; their string
values follow the upstream definitions referenced there. -/

def ClusterScoped : String := "Cluster"
def NamespaceScoped : String := "Namespaced"
def PropagationEnabled : String := "Enabled"
def PropagationDisabled : String := "Disabled"
def StatusCollectionEnabled : String := "Enabled"
def StatusCollectionDisabled : String := "Disabled"
def ControllerStatusRunning : String := "Running"
def ControllerStatusNotRunning : String := "NotRunning"
def ConfigMapsResourceLock : String := "configmaps"
def EndpointsResourceLock : String := "endpoints"
def ConfigurationEnabled : String := "Enabled"
def ConfigurationDisabled : String := "Disabled"
def AdoptResourcesEnabled : String := "Enabled"
def AdoptResourcesDisabled : String := "Disabled"
def PushReconciler : String := "PushReconciler"
def SchedulerPreferences : String := "SchedulerPreferences"
def CrossClusterServiceDiscovery : String := "CrossClusterServiceDiscovery"
def FederatedIngress : String := "FederatedIngress"

/-! ### Data model (`v1beta1` API types) -/

/-- Embedding of `v1beta1.APIResource`: the descriptor of an API resource type. -/
structure APIResource where
  Group : String
  Version : String
  Kind : String
  PluralName : String
  Scope : String
deriving DecidableEq

/-- Embedding of `v1beta1.FederatedTypeConfigSpec`. -/
structure FederatedTypeConfigSpec where
  TargetType : APIResource
  Propagation : String
  FederatedType : APIResource
  StatusType : Option APIResource
  StatusCollection : Option String
deriving DecidableEq

/-- Embedding of `v1beta1.FederatedTypeConfigStatus`. -/
structure FederatedTypeConfigStatus where
  ObservedGeneration : Int
  PropagationController : String
  StatusController : Option String
deriving DecidableEq

/-- Embedding of `v1beta1.FederatedTypeConfig` (object metadata reduced to the `Name`
consulted by the validator). -/
structure FederatedTypeConfig where
  Name : String
  Spec : FederatedTypeConfigSpec
  Status : FederatedTypeConfigStatus
deriving DecidableEq

/-- Embedding of `v1beta1.DurationConfig`: delays as nanosecond counts. -/
structure DurationConfig where
  AvailableDelay : Int
  UnavailableDelay : Int
deriving DecidableEq

/-- Embedding of `v1beta1.LeaderElectConfig`: durations as nanosecond counts. -/
structure LeaderElectConfig where
  LeaseDuration : Int
  RenewDeadline : Int
  RetryPeriod : Int
  ResourceLock : String
deriving DecidableEq

/-- Embedding of `v1beta1.FeatureGatesConfig`. -/
structure FeatureGatesConfig where
  Name : String
  Configuration : String
deriving DecidableEq

/-- Embedding of `v1beta1.ClusterHealthCheckConfig`. -/
structure ClusterHealthCheckConfig where
  PeriodSeconds : Int
  FailureThreshold : Int
  SuccessThreshold : Int
  TimeoutSeconds : Int
deriving DecidableEq

/-- Embedding of `v1beta1.SyncControllerConfig`. -/
structure SyncControllerConfig where
  AdoptResources : String
deriving DecidableEq

/-- Embedding of `v1beta1.KubeFedConfigSpec`. -/
structure KubeFedConfigSpec where
  Scope : String
  ControllerDuration : DurationConfig
  LeaderElect : LeaderElectConfig
  FeatureGates : List FeatureGatesConfig
  ClusterHealthCheck : ClusterHealthCheckConfig
  SyncController : SyncControllerConfig
deriving DecidableEq

/-- Embedding of `v1beta1.KubeFedConfig` (object metadata reduced to the `Name`). -/
structure KubeFedConfig where
  Name : String
  Spec : KubeFedConfigSpec
deriving DecidableEq

/-- Embedding of `v1beta1.KubeFedCluster`: the validator inspects none of its fields,
so only a placeholder field is modelled. -/
structure KubeFedCluster where
  Name : String
deriving DecidableEq

/-- Modelled from the spec: `typeconfig.GroupQualifiedName` is not part of
the validation source file; the spec describes the expected name as the
target's "plural name, plus a dot-suffixed group qualifier when
TargetType.Group is non-core (non-empty)". -/
def GroupQualifiedName (r : APIResource) : String :=
  if r.Group = "" then r.PluralName else r.PluralName ++ "." ++ r.Group

/-! ### The validators (`validation.go`) -/

def federatedTypeConfigNameErrorMsg : String :=
  "name must be TARGET_PLURAL_NAME(.TARGET_GROUP_NAME)"

def domainWithAtLeastOneDot : String := "should be a domain with at least one dot"

/-- Embedding of `validateEnumStrings(fldPath, value, accepted)`. -/
def validateEnumStrings (fldPath : FieldPath) (value : String) (accepted : List String) :
    List FieldError :=
  if value = "" then [fieldRequired fldPath ""]
  else if accepted.contains value then []
  else [fieldNotSupported fldPath value accepted]

/-- Embedding of `ValidateFederatedTypeConfigName(obj)`. -/
def ValidateFederatedTypeConfigName (obj : FederatedTypeConfig) : List FieldError :=
  if GroupQualifiedName obj.Spec.TargetType ≠ obj.Name then
    [fieldInvalid (newPath "name") obj.Name federatedTypeConfigNameErrorMsg]
  else []

/-- Embedding of `ValidateAPIResource(obj, fldPath)`. -/
def ValidateAPIResource (obj : APIResource) (fldPath : FieldPath) : List FieldError :=
  (if obj.Group ≠ "" then
    (if IsDNS1123Subdomain obj.Group ≠ [] then
      [fieldInvalid (fldPath.child "group") obj.Group
        (String.intercalate "," (IsDNS1123Subdomain obj.Group))]
    else [])
  else [])
  ++ (if obj.Version = "" then [fieldRequired (fldPath.child "version") ""]
    else if IsDNS1035Label obj.Version ≠ [] then
      [fieldInvalid (fldPath.child "version") obj.Version
        (String.intercalate "," (IsDNS1035Label obj.Version))]
    else [])
  ++ (if obj.Kind = "" then [fieldRequired (fldPath.child "kind") ""]
    else if IsDNS1035Label (toLowerStr obj.Kind) ≠ [] then
      [fieldInvalid (fldPath.child "kind") obj.Kind
        (String.intercalate "," (IsDNS1035Label (toLowerStr obj.Kind)))]
    else [])
  ++ (if obj.PluralName = "" then [fieldRequired (fldPath.child "pluralName") ""]
    else if IsDNS1035Label obj.PluralName ≠ [] then
      [fieldInvalid (fldPath.child "pluralName") obj.PluralName
        (String.intercalate "," (IsDNS1035Label obj.PluralName))]
    else [])
  ++ validateEnumStrings (fldPath.child "scope") obj.Scope [ClusterScoped, NamespaceScoped]

/-- Embedding of `ValidateFederatedAPIResource(fedType, fldPath)`. -/
def ValidateFederatedAPIResource (fedType : APIResource) (fldPath : FieldPath) :
    List FieldError :=
  (if fedType.Group = "" then [fieldRequired (fldPath.child "group") ""]
    else if (splitOnDot fedType.Group).length < 2 then
      [fieldInvalid (fldPath.child "group") fedType.Group domainWithAtLeastOneDot]
    else [])
  ++ ValidateAPIResource fedType fldPath

/-- Embedding of `ValidateStatusAPIResource(statusType, fldPath)`. -/
def ValidateStatusAPIResource (statusType : APIResource) (fldPath : FieldPath) :
    List FieldError :=
  ValidateFederatedAPIResource statusType fldPath

/-- Embedding of `ValidateFederatedTypeConfigSpec(spec, fldPath)`. -/
def ValidateFederatedTypeConfigSpec (spec : FederatedTypeConfigSpec) (fldPath : FieldPath) :
    List FieldError :=
  ValidateAPIResource spec.TargetType (fldPath.child "targetType")
  ++ validateEnumStrings (fldPath.child "propagation") spec.Propagation
      [PropagationEnabled, PropagationDisabled]
  ++ ValidateFederatedAPIResource spec.FederatedType (fldPath.child "federatedType")
  ++ (match spec.StatusType with
    | some st => ValidateStatusAPIResource st (fldPath.child "statusType")
    | none => [])
  ++ (match spec.StatusCollection with
    | some sc => validateEnumStrings (fldPath.child "statusCollection") sc
        [StatusCollectionEnabled, StatusCollectionDisabled]
    | none => [])

/-- Embedding of `ValidateFederatedTypeConfigStatus(status, fldPath)`. -/
def ValidateFederatedTypeConfigStatus (status : FederatedTypeConfigStatus)
    (fldPath : FieldPath) : List FieldError :=
  ValidateNonnegativeField status.ObservedGeneration (fldPath.child "observedGeneration")
  ++ validateEnumStrings (fldPath.child "propagationController") status.PropagationController
      [ControllerStatusRunning, ControllerStatusNotRunning]
  ++ (match status.StatusController with
    | some sc => validateEnumStrings (fldPath.child "statusController") sc
        [ControllerStatusRunning, ControllerStatusNotRunning]
    | none => [])

/-- Embedding of `ValidateFederatedTypeConfig(obj, statusSubResource)`. -/
def ValidateFederatedTypeConfig (obj : FederatedTypeConfig) (statusSubResource : Bool) :
    List FieldError :=
  if !statusSubResource then
    ValidateFederatedTypeConfigName obj
      ++ ValidateFederatedTypeConfigSpec obj.Spec (newPath "spec")
  else
    ValidateFederatedTypeConfigStatus obj.Status (newPath "status")

/-- Embedding of `validateGreaterThan0(path, value)`. -/
def validateGreaterThan0 (path : FieldPath) (value : Int) : List FieldError :=
  if value ≤ 0 then [fieldInvalid path (toString value) "should be greater than 0"]
  else []

/-- Embedding of `time.Duration(float64(retryPeriod) * leaderelection.JitterFactor)` with
`JitterFactor = 1.2`: modelled as exact rational multiplication truncated
toward zero, matching Go's float-to-duration conversion; the rounding error
of the binary-float product (below one nanosecond relative precision at the
magnitudes involved) is not modelled. -/
def jitterProduct (retryPeriod : Int) : Int := Int.tdiv (retryPeriod * 12) 10

/-- The feature-gates loop of `ValidateKubeFedConfig`, with the
`existingNames` set embedded as the list of names seen so far. -/
def featureGatesLoop (gatesPath : FieldPath) :
    List FeatureGatesConfig → List String → List FieldError
  | [], _ => []
  | gate :: rest, existingNames =>
    if existingNames.contains gate.Name then
      fieldDuplicate (gatesPath.child "name") gate.Name
        :: featureGatesLoop gatesPath rest existingNames
    else
      validateEnumStrings (gatesPath.child "name") gate.Name
          [PushReconciler, SchedulerPreferences, CrossClusterServiceDiscovery,
            FederatedIngress]
        ++ validateEnumStrings (gatesPath.child "configuration") gate.Configuration
            [ConfigurationEnabled, ConfigurationDisabled]
        ++ featureGatesLoop gatesPath rest (gate.Name :: existingNames)

/-- Embedding of `ValidateKubeFedConfig(kubeFedConfig)` (the log line is elided). -/
def ValidateKubeFedConfig (kubeFedConfig : KubeFedConfig) : List FieldError :=
  let spec := kubeFedConfig.Spec
  let specPath := newPath "spec"
  let duration := spec.ControllerDuration
  let durationPath := specPath.child "controllerDuration"
  let elect := spec.LeaderElect
  let electPath := specPath.child "leaderElect"
  let gatesPath := specPath.child "featureGates"
  let health := spec.ClusterHealthCheck
  let healthPath := specPath.child "clusterHealthCheck"
  let sync := spec.SyncController
  let syncPath := specPath.child "syncController"
  validateEnumStrings (specPath.child "scope") spec.Scope [ClusterScoped, NamespaceScoped]
  ++ validateGreaterThan0 (durationPath.child "availableDelay") duration.AvailableDelay
  ++ validateGreaterThan0 (durationPath.child "unavailableDelay") duration.UnavailableDelay
  ++ validateGreaterThan0 (electPath.child "leaseDuration") elect.LeaseDuration
  ++ validateGreaterThan0 (electPath.child "renewDeadline") elect.RenewDeadline
  ++ validateGreaterThan0 (electPath.child "retryPeriod") elect.RetryPeriod
  ++ (if elect.LeaseDuration ≤ elect.RenewDeadline then
      [fieldInvalid (electPath.child "leaseDuration") (toString elect.LeaseDuration)
        "leaseDuration must be greater than renewDeadline"]
    else [])
  ++ (if elect.RenewDeadline ≤ jitterProduct elect.RetryPeriod then
      [fieldInvalid (electPath.child "renewDeadline") (toString elect.RenewDeadline)
        "renewDeadline must be greater than retryPeriod*JitterFactor"]
    else [])
  ++ validateEnumStrings (electPath.child "resourceLock") elect.ResourceLock
      [ConfigMapsResourceLock, EndpointsResourceLock]
  ++ featureGatesLoop gatesPath spec.FeatureGates []
  ++ validateGreaterThan0 (healthPath.child "periodSeconds") health.PeriodSeconds
  ++ validateGreaterThan0 (healthPath.child "failureThreshold") health.FailureThreshold
  ++ validateGreaterThan0 (healthPath.child "successThreshold") health.SuccessThreshold
  ++ validateGreaterThan0 (healthPath.child "timeoutSeconds") health.TimeoutSeconds
  ++ validateEnumStrings (syncPath.child "adoptResources") sync.AdoptResources
      [AdoptResourcesEnabled, AdoptResourcesDisabled]

/-- Embedding of `ValidateKubeFedCluster(object)`. -/
def ValidateKubeFedCluster (object : KubeFedCluster) : List FieldError := []

end KubeFedValidation

namespace KubeFedValidation

/-! ### Observation helpers and basic lemmas -/

/-- The violations of a list that sit on a given field path. -/
def errsOn (p : FieldPath) (l : List FieldError) : List FieldError :=
  l.filter (fun e => e.field == p)

/-- Whether a violation is a `Duplicate` violation. -/
def isDuplicateErr (e : FieldError) : Bool := e.type == ErrorType.duplicate

/-- Modelled from the spec: the number of repeat occurrences in a name
sequence, one per entry whose name was already seen earlier ("exactly one
Duplicate violation per repeat occurrence, first occurrence never
flagged"); it depends on the names only. -/
def repeatCount : List String → List String → Nat
  | [], _ => 0
  | n :: rest, seen =>
    if seen.contains n then repeatCount rest seen + 1
    else repeatCount rest (n :: seen)

/-- The shape of a violation with the recorded offending value erased. -/
def errShape (e : FieldError) : ErrorType × FieldPath × String :=
  (e.type, e.field, e.detail)

theorem errsOn_append (q : FieldPath) (a b : List FieldError) :
    errsOn q (a ++ b) = errsOn q a ++ errsOn q b :=
  List.filter_append a b

theorem errsOn_eq_nil {q : FieldPath} {l : List FieldError}
    (h : ∀ e ∈ l, e.field ≠ q) : errsOn q l = [] := by
  simp only [errsOn, List.filter_eq_nil_iff]
  intro e he
  simpa using h e he

theorem errsOn_eq_self {q : FieldPath} {l : List FieldError}
    (h : ∀ e ∈ l, e.field = q) : errsOn q l = l := by
  induction l with
  | nil => rfl
  | cons e t ih =>
    have he : e.field = q := h e (by simp)
    simp only [errsOn, List.filter_cons, he, beq_self_eq_true, if_pos]
    simp only [errsOn] at ih
    rw [ih (fun x hx => h x (by simp [hx]))]

theorem FieldPath.child_ne (p : FieldPath) {a b : String} (h : a ≠ b) :
    p.child a ≠ p.child b := by
  intro hc
  exact h (by simpa using List.append_cancel_left hc)

theorem validateEnumStrings_field {p : FieldPath} {v : String} {a : List String} :
    ∀ e ∈ validateEnumStrings p v a, e.field = p := by
  intro e he
  simp only [validateEnumStrings] at he
  split at he
  · simp only [List.mem_singleton] at he; subst he; rfl
  · split at he
    · simp at he
    · simp only [List.mem_singleton] at he; subst he; rfl

theorem validateEnumStrings_not_dup {p : FieldPath} {v : String} {a : List String} :
    ∀ e ∈ validateEnumStrings p v a, isDuplicateErr e = false := by
  intro e he
  simp only [validateEnumStrings] at he
  split at he
  · simp only [List.mem_singleton] at he; subst he; rfl
  · split at he
    · simp at he
    · simp only [List.mem_singleton] at he; subst he; rfl

theorem validateGreaterThan0_field {p : FieldPath} {v : Int} :
    ∀ e ∈ validateGreaterThan0 p v, e.field = p := by
  intro e he
  simp only [validateGreaterThan0] at he
  split at he
  · simp only [List.mem_singleton] at he; subst he; rfl
  · simp at he

theorem validateGreaterThan0_not_dup {p : FieldPath} {v : Int} :
    ∀ e ∈ validateGreaterThan0 p v, isDuplicateErr e = false := by
  intro e he
  simp only [validateGreaterThan0] at he
  split at he
  · simp only [List.mem_singleton] at he; subst he; rfl
  · simp at he

theorem validateGreaterThan0_of_pos {p : FieldPath} {v : Int} (h : 0 < v) :
    validateGreaterThan0 p v = [] := by
  simp only [validateGreaterThan0, ite_eq_right_iff]
  intro hle
  omega

theorem errsOn_validateEnumStrings_ne {p q : FieldPath} {v : String}
    {a : List String} (h : p ≠ q) : errsOn q (validateEnumStrings p v a) = [] :=
  errsOn_eq_nil (fun e he => by rw [validateEnumStrings_field e he]; exact h)

theorem errsOn_validateGreaterThan0_ne {p q : FieldPath} {v : Int} (h : p ≠ q) :
    errsOn q (validateGreaterThan0 p v) = [] :=
  errsOn_eq_nil (fun e he => by rw [validateGreaterThan0_field e he]; exact h)

theorem errsOn_ite_single_ne {c : Prop} [Decidable c] {e : FieldError}
    {q : FieldPath} (h : e.field ≠ q) :
    errsOn q (if c then [e] else []) = [] := by
  split
  · exact errsOn_eq_nil (by intro x hx; simp only [List.mem_singleton] at hx; subst hx; exact h)
  · rfl

theorem featureGatesLoop_field (gp : FieldPath) :
    ∀ (gates : List FeatureGatesConfig) (seen : List String),
      ∀ e ∈ featureGatesLoop gp gates seen,
        e.field = gp.child "name" ∨ e.field = gp.child "configuration" := by
  intro gates
  induction gates with
  | nil => intro seen e he; simp [featureGatesLoop] at he
  | cons g rest ih =>
    intro seen e he
    simp only [featureGatesLoop] at he
    split at he
    · rcases List.mem_cons.mp he with h | h
      · subst h; left; rfl
      · exact ih seen e h
    · rcases List.mem_append.mp he with h | h
      · rcases List.mem_append.mp h with h2 | h2
        · exact Or.inl (validateEnumStrings_field e h2)
        · exact Or.inr (validateEnumStrings_field e h2)
      · exact ih _ e h

theorem featureGatesLoop_dup_field (gp : FieldPath) :
    ∀ (gates : List FeatureGatesConfig) (seen : List String),
      ∀ e ∈ featureGatesLoop gp gates seen,
        e.type = ErrorType.duplicate → e.field = gp.child "name" := by
  intro gates
  induction gates with
  | nil => intro seen e he; simp [featureGatesLoop] at he
  | cons g rest ih =>
    intro seen e he ht
    simp only [featureGatesLoop] at he
    split at he
    · rcases List.mem_cons.mp he with h | h
      · subst h; rfl
      · exact ih seen e h ht
    · rcases List.mem_append.mp he with h | h
      · rcases List.mem_append.mp h with h2 | h2
        · have := validateEnumStrings_not_dup e h2
          simp [isDuplicateErr, ht] at this
        · have := validateEnumStrings_not_dup e h2
          simp [isDuplicateErr, ht] at this
      · exact ih _ e h ht

theorem errsOn_featureGatesLoop_ne {gp q : FieldPath}
    (h1 : gp.child "name" ≠ q) (h2 : gp.child "configuration" ≠ q)
    (gates : List FeatureGatesConfig) (seen : List String) :
    errsOn q (featureGatesLoop gp gates seen) = [] :=
  errsOn_eq_nil (by
    intro e he
    rcases featureGatesLoop_field gp gates seen e he with h | h
    · rw [h]; exact h1
    · rw [h]; exact h2)

theorem countP_dup_validateEnumStrings {p : FieldPath} {v : String}
    {a : List String} : (validateEnumStrings p v a).countP isDuplicateErr = 0 := by
  rw [List.countP_eq_zero]
  intro e he
  simp [validateEnumStrings_not_dup e he]

theorem countP_dup_validateGreaterThan0 {p : FieldPath} {v : Int} :
    (validateGreaterThan0 p v).countP isDuplicateErr = 0 := by
  rw [List.countP_eq_zero]
  intro e he
  simp [validateGreaterThan0_not_dup e he]

theorem countP_dup_ite_invalid {c : Prop} [Decidable c] {p : FieldPath}
    {v d : String} :
    ((if c then [fieldInvalid p v d] else []) : List FieldError).countP isDuplicateErr
      = 0 := by
  split <;> rfl

theorem featureGatesLoop_dupCount (gp : FieldPath) :
    ∀ (gates : List FeatureGatesConfig) (seen : List String),
      (featureGatesLoop gp gates seen).countP isDuplicateErr
        = repeatCount (gates.map FeatureGatesConfig.Name) seen := by
  intro gates
  induction gates with
  | nil => intro seen; rfl
  | cons g rest ih =>
    intro seen
    simp only [featureGatesLoop, List.map_cons, repeatCount]
    split
    · rw [List.countP_cons]
      simp only [isDuplicateErr, fieldDuplicate]
      rw [ih seen]
      rfl
    · rw [List.countP_append, List.countP_append,
        countP_dup_validateEnumStrings, countP_dup_validateEnumStrings, ih]
      omega

end KubeFedValidation

namespace KubeFedValidation

/-! ### Path shape of descriptor validation -/

theorem errsOn_ite_ite_ne {c1 c2 : Prop} [Decidable c1] [Decidable c2]
    {e1 e2 : FieldError} {q : FieldPath} (h1 : e1.field ≠ q) (h2 : e2.field ≠ q) :
    errsOn q (if c1 then [e1] else if c2 then [e2] else []) = [] := by
  split
  · exact errsOn_eq_nil
      (by intro x hx; simp only [List.mem_singleton] at hx; subst hx; exact h1)
  · exact errsOn_ite_single_ne h2

theorem ValidateAPIResource_field (obj : APIResource) (p : FieldPath) :
    ∀ e ∈ ValidateAPIResource obj p, ∃ s, e.field = p.child s := by
  intro e he
  simp only [ValidateAPIResource, List.mem_append] at he
  rcases he with ((((h | h) | h) | h) | h)
  · split at h
    · split at h
      · simp only [List.mem_singleton] at h; subst h; exact ⟨"group", rfl⟩
      · simp at h
    · simp at h
  · split at h
    · simp only [List.mem_singleton] at h; subst h; exact ⟨"version", rfl⟩
    · split at h
      · simp only [List.mem_singleton] at h; subst h; exact ⟨"version", rfl⟩
      · simp at h
  · split at h
    · simp only [List.mem_singleton] at h; subst h; exact ⟨"kind", rfl⟩
    · split at h
      · simp only [List.mem_singleton] at h; subst h; exact ⟨"kind", rfl⟩
      · simp at h
  · split at h
    · simp only [List.mem_singleton] at h; subst h; exact ⟨"pluralName", rfl⟩
    · split at h
      · simp only [List.mem_singleton] at h; subst h; exact ⟨"pluralName", rfl⟩
      · simp at h
  · exact ⟨"scope", validateEnumStrings_field e h⟩

theorem ValidateFederatedAPIResource_field (obj : APIResource) (p : FieldPath) :
    ∀ e ∈ ValidateFederatedAPIResource obj p, ∃ s, e.field = p.child s := by
  intro e he
  simp only [ValidateFederatedAPIResource, List.mem_append] at he
  rcases he with h | h
  · split at h
    · simp only [List.mem_singleton] at h; subst h; exact ⟨"group", rfl⟩
    · split at h
      · simp only [List.mem_singleton] at h; subst h; exact ⟨"group", rfl⟩
      · simp at h
  · exact ValidateAPIResource_field obj p e h

theorem ValidateFederatedTypeConfigSpec_field (spec : FederatedTypeConfigSpec)
    (p : FieldPath) :
    ∀ e ∈ ValidateFederatedTypeConfigSpec spec p, ∃ s t, e.field = p ++ s :: t := by
  intro e he
  simp only [ValidateFederatedTypeConfigSpec, List.mem_append] at he
  rcases he with ((((h | h) | h) | h) | h)
  · obtain ⟨s, hs⟩ := ValidateAPIResource_field spec.TargetType (p.child "targetType") e h
    exact ⟨"targetType", [s], by rw [hs]; simp [FieldPath.child]⟩
  · exact ⟨"propagation", [], validateEnumStrings_field e h⟩
  · obtain ⟨s, hs⟩ :=
      ValidateFederatedAPIResource_field spec.FederatedType (p.child "federatedType") e h
    exact ⟨"federatedType", [s], by rw [hs]; simp [FieldPath.child]⟩
  · cases hst : spec.StatusType with
    | none => rw [hst] at h; simp at h
    | some st =>
      rw [hst] at h
      obtain ⟨s, hs⟩ :=
        ValidateFederatedAPIResource_field st (p.child "statusType") e h
      exact ⟨"statusType", [s], by rw [hs]; simp [FieldPath.child]⟩
  · cases hsc : spec.StatusCollection with
    | none => rw [hsc] at h; simp at h
    | some sc =>
      rw [hsc] at h
      exact ⟨"statusCollection", [], validateEnumStrings_field e h⟩

end KubeFedValidation

namespace KubeFedValidation

theorem errsOn_fieldInvalid_self (p : FieldPath) (v d : String) :
    errsOn p [fieldInvalid p v d] = [fieldInvalid p v d] := by
  simp [errsOn, fieldInvalid]

/-! ### Claim C9 -/

/-- Claim C9: for every input object, `ValidateKubeFedCluster` returns the
empty violation list unconditionally — no field of a KubeFedCluster is
validated at all. -/
theorem C9_ValidateKubeFedCluster_empty (object : KubeFedCluster) :
    ValidateKubeFedCluster object = [] := rfl

/-! ### Claim C4 -/

/-- Claim C4 counterexample: the claim reads "if value is a member of
accepted the result is the empty list", but when the empty string is
itself listed in `accepted`, the empty value is a member and the result is
nevertheless the `Required` singleton, not the empty list: the emptiness
check precedes the membership check. -/
theorem C4_counterexample :
    ([""] : List String).contains "" = true
    ∧ validateEnumStrings (newPath "p") "" [""] = [fieldRequired (newPath "p") ""]
    ∧ validateEnumStrings (newPath "p") "" [""] ≠ [] := by
  decide

/-- Claim C4 (amended): for every call `validateEnumStrings(path, value,
accepted)`: an empty value gives exactly one `Required` violation on the
path (even if the empty string is listed in `accepted`); a non-empty value
that is not a member of `accepted` gives exactly one `NotSupported`
violation carrying the full accepted set; a non-empty member gives the
empty list. -/
theorem C4_validateEnumStrings_cases (p : FieldPath) (value : String)
    (accepted : List String) :
    (value = "" → validateEnumStrings p value accepted = [fieldRequired p ""])
    ∧ (value ≠ "" → accepted.contains value = false →
        validateEnumStrings p value accepted = [fieldNotSupported p value accepted])
    ∧ (value ≠ "" → accepted.contains value = true →
        validateEnumStrings p value accepted = []) := by
  refine ⟨?_, ?_, ?_⟩
  · intro h
    simp [validateEnumStrings, h]
  · intro h1 h2
    have h2' : value ∉ accepted := by simpa using h2
    simp [validateEnumStrings, h1, h2']
  · intro h1 h2
    have h2' : value ∈ accepted := by simpa using h2
    simp [validateEnumStrings, h1, h2']

/-- Witness for C4: the three branches at concrete inputs. -/
theorem C4_validateEnumStrings_cases_witness :
    validateEnumStrings (newPath "q") "" ["a"] = [fieldRequired (newPath "q") ""]
    ∧ validateEnumStrings (newPath "q") "c" ["a", "b"]
        = [fieldNotSupported (newPath "q") "c" ["a", "b"]]
    ∧ validateEnumStrings (newPath "q") "a" ["a", "b"] = [] :=
  ⟨(C4_validateEnumStrings_cases (newPath "q") "" ["a"]).1 rfl,
   (C4_validateEnumStrings_cases (newPath "q") "c" ["a", "b"]).2.1 (by decide) (by decide),
   (C4_validateEnumStrings_cases (newPath "q") "a" ["a", "b"]).2.2 (by decide) (by decide)⟩

/-! ### Claim C5 -/

/-- Claim C5: a FederatedType or StatusType descriptor with an empty Group
gets a `Required` violation on `group`; with a non-empty Group of fewer
than two dot-separated labels it gets an `InvalidValue` violation on
`group` — in both cases whatever the other descriptor fields hold, and the
status-descriptor validation is literally the federated-descriptor
validation. -/
theorem C5_strict_group_checks (obj : APIResource) (p : FieldPath) :
    (obj.Group = "" →
      fieldRequired (p.child "group") "" ∈ ValidateFederatedAPIResource obj p)
    ∧ (obj.Group ≠ "" → (splitOnDot obj.Group).length < 2 →
      fieldInvalid (p.child "group") obj.Group domainWithAtLeastOneDot
        ∈ ValidateFederatedAPIResource obj p)
    ∧ ValidateStatusAPIResource obj p = ValidateFederatedAPIResource obj p := by
  refine ⟨?_, ?_, rfl⟩
  · intro h
    simp only [ValidateFederatedAPIResource]
    rw [if_pos h]
    exact List.mem_append_left _ (by simp)
  · intro h1 h2
    simp only [ValidateFederatedAPIResource]
    rw [if_neg h1, if_pos h2]
    exact List.mem_append_left _ (by simp)

def c5emptyGroup : APIResource := ⟨"", "v1", "pod", "pods", "Cluster"⟩
def c5oneLabel : APIResource := ⟨"example", "v1", "pod", "pods", "Cluster"⟩

/-- Witness for C5 at concrete descriptors with all other fields valid. -/
theorem C5_strict_group_checks_witness :
    fieldRequired ((newPath "federatedType").child "group") ""
        ∈ ValidateFederatedAPIResource c5emptyGroup (newPath "federatedType")
    ∧ fieldInvalid ((newPath "federatedType").child "group") c5oneLabel.Group
        domainWithAtLeastOneDot
        ∈ ValidateFederatedAPIResource c5oneLabel (newPath "federatedType") :=
  ⟨(C5_strict_group_checks c5emptyGroup (newPath "federatedType")).1 rfl,
   (C5_strict_group_checks c5oneLabel (newPath "federatedType")).2.1
     (by decide) (by decide)⟩

/-! ### Claim C10 -/

/-- Claim C10: a descriptor whose Group is non-empty, has fewer than two
dot-separated labels, and fails DNS-subdomain syntax, gets exactly two
violations on the `group` path from the strict validation: the
`InvalidValue` for the missing dot followed by the `InvalidValue` for the
syntax failure of the base descriptor check. -/
theorem C10_group_two_violations (obj : APIResource) (p : FieldPath)
    (h1 : obj.Group ≠ "") (h2 : (splitOnDot obj.Group).length < 2)
    (h3 : IsDNS1123Subdomain obj.Group ≠ []) :
    errsOn (p.child "group") (ValidateFederatedAPIResource obj p) =
      [fieldInvalid (p.child "group") obj.Group domainWithAtLeastOneDot,
       fieldInvalid (p.child "group") obj.Group
         (String.intercalate "," (IsDNS1123Subdomain obj.Group))] := by
  have hv : p.child "version" ≠ p.child "group" := FieldPath.child_ne p (by decide)
  have hk : p.child "kind" ≠ p.child "group" := FieldPath.child_ne p (by decide)
  have hpl : p.child "pluralName" ≠ p.child "group" := FieldPath.child_ne p (by decide)
  have hsc : p.child "scope" ≠ p.child "group" := FieldPath.child_ne p (by decide)
  simp only [ValidateFederatedAPIResource, ValidateAPIResource]
  rw [if_neg h1, if_pos h2, if_pos h1, if_pos h3]
  simp only [errsOn_append]
  rw [errsOn_fieldInvalid_self, errsOn_fieldInvalid_self,
    errsOn_ite_ite_ne hv hv, errsOn_ite_ite_ne hk hk, errsOn_ite_ite_ne hpl hpl,
    errsOn_validateEnumStrings_ne hsc]
  simp

def c10obj : APIResource := ⟨"-", "v1", "pod", "pods", "Cluster"⟩

/-- Witness for C10: Group `-` is a single label and fails subdomain syntax. -/
theorem C10_group_two_violations_witness :
    errsOn ((newPath "federatedType").child "group")
        (ValidateFederatedAPIResource c10obj (newPath "federatedType"))
      = [fieldInvalid ((newPath "federatedType").child "group") c10obj.Group
           domainWithAtLeastOneDot,
         fieldInvalid ((newPath "federatedType").child "group") c10obj.Group
           (String.intercalate "," (IsDNS1123Subdomain c10obj.Group))] :=
  C10_group_two_violations c10obj (newPath "federatedType")
    (by decide) (by decide) (by decide)

/-! ### Claim C1 -/

def c1obj : FederatedTypeConfig :=
  ⟨"bad", ⟨⟨"", "", "", "", ""⟩, "", ⟨"", "", "", "", ""⟩, none, none⟩, ⟨0, "", none⟩⟩

/-- Claim C1 counterexample: the claim says that on a name mismatch the
name check short-circuits spec validation, so that no spec-field
violations appear in the same call.  On this object the name mismatches
(exactly one violation sits on path `name`), yet the very same call also
returns violations on other paths: the branches concatenate, they are not
exclusive. -/
theorem C1_counterexample :
    GroupQualifiedName c1obj.Spec.TargetType ≠ c1obj.Name
    ∧ (errsOn (newPath "name") (ValidateFederatedTypeConfig c1obj false)).length = 1
    ∧ (ValidateFederatedTypeConfig c1obj false).any
        (fun e => !(e.field == newPath "name")) = true := by
  decide

/-- Claim C1 (amended): with `statusSubResource = false` and a Name that
differs from the name derived from TargetType, the result is exactly one
`InvalidValue` violation on path `name` followed by the spec-field
violations of the same call (the spec-field checks still run; the
branches are concatenated, not mutually exclusive). -/
theorem C1_name_mismatch_appends_spec (obj : FederatedTypeConfig)
    (h : GroupQualifiedName obj.Spec.TargetType ≠ obj.Name) :
    ValidateFederatedTypeConfig obj false =
      fieldInvalid (newPath "name") obj.Name federatedTypeConfigNameErrorMsg
        :: ValidateFederatedTypeConfigSpec obj.Spec (newPath "spec")
    ∧ errsOn (newPath "name") (ValidateFederatedTypeConfig obj false) =
      [fieldInvalid (newPath "name") obj.Name federatedTypeConfigNameErrorMsg] := by
  have hv : ValidateFederatedTypeConfig obj false =
      fieldInvalid (newPath "name") obj.Name federatedTypeConfigNameErrorMsg
        :: ValidateFederatedTypeConfigSpec obj.Spec (newPath "spec") := by
    simp [ValidateFederatedTypeConfig, ValidateFederatedTypeConfigName, h]
  have hspec : errsOn (newPath "name")
      (ValidateFederatedTypeConfigSpec obj.Spec (newPath "spec")) = [] := by
    apply errsOn_eq_nil
    intro e he
    obtain ⟨s, t, hst⟩ :=
      ValidateFederatedTypeConfigSpec_field obj.Spec (newPath "spec") e he
    rw [hst]
    simp [newPath]
  refine ⟨hv, ?_⟩
  rw [hv]
  calc errsOn (newPath "name")
        (fieldInvalid (newPath "name") obj.Name federatedTypeConfigNameErrorMsg
          :: ValidateFederatedTypeConfigSpec obj.Spec (newPath "spec"))
      = fieldInvalid (newPath "name") obj.Name federatedTypeConfigNameErrorMsg
          :: errsOn (newPath "name")
              (ValidateFederatedTypeConfigSpec obj.Spec (newPath "spec")) := by
        simp [errsOn, List.filter_cons, fieldInvalid]
    _ = [fieldInvalid (newPath "name") obj.Name federatedTypeConfigNameErrorMsg] := by
        rw [hspec]

/-- Witness for C1 at a concrete mismatching object. -/
theorem C1_name_mismatch_appends_spec_witness :
    errsOn (newPath "name") (ValidateFederatedTypeConfig c1obj false)
      = [fieldInvalid (newPath "name") c1obj.Name federatedTypeConfigNameErrorMsg] :=
  (C1_name_mismatch_appends_spec c1obj (by decide)).2

end KubeFedValidation

namespace KubeFedValidation

theorem errsOn_ite_single_self {c : Prop} [Decidable c] {e : FieldError}
    {q : FieldPath} (h : e.field = q) :
    errsOn q (if c then [e] else []) = if c then [e] else [] := by
  split
  · exact errsOn_eq_self
      (by intro x hx; simp only [List.mem_singleton] at hx; subst hx; exact h)
  · rfl

theorem errsOn_ite_fieldInvalid_ne {c : Prop} [Decidable c] {P q : FieldPath}
    (v d : String) (h : P ≠ q) :
    errsOn q (if c then [fieldInvalid P v d] else []) = [] :=
  errsOn_ite_single_ne (by simpa [fieldInvalid] using h)

theorem errsOn_ite_fieldInvalid_self {c : Prop} [Decidable c] (P : FieldPath)
    (v d : String) :
    errsOn P (if c then [fieldInvalid P v d] else [])
      = if c then [fieldInvalid P v d] else [] :=
  errsOn_ite_single_self rfl

theorem errsOn_validateGreaterThan0_self (p : FieldPath) (v : Int) :
    errsOn p (validateGreaterThan0 p v) = validateGreaterThan0 p v :=
  errsOn_eq_self validateGreaterThan0_field

/-! ### Claim C3 -/

def c3cfg : KubeFedConfig :=
  ⟨"c", ⟨"Cluster", ⟨1, 1⟩, ⟨10000000000, 10000000000, 2000000000, "configmaps"⟩,
    [], ⟨1, 1, 1, 1⟩, ⟨"Enabled"⟩⟩⟩

def c3zero : KubeFedConfig :=
  ⟨"z", ⟨"Cluster", ⟨1, 1⟩, ⟨0, 0, 2, "configmaps"⟩,
    [], ⟨1, 1, 1, 1⟩, ⟨"Enabled"⟩⟩⟩

/-- Claim C3 counterexample: the claim asks for exactly one violation on
`spec.leaderElect.leaseDuration` for every configuration with
LeaseDuration ≤ RenewDeadline; with LeaseDuration = 0 the positivity check
adds a second violation on that same path, so the count is two. -/
theorem C3_counterexample :
    c3zero.Spec.LeaderElect.LeaseDuration ≤ c3zero.Spec.LeaderElect.RenewDeadline
    ∧ (errsOn ["spec", "leaderElect", "leaseDuration"]
        (ValidateKubeFedConfig c3zero)).length = 2 := by
  decide

/-- Claim C3 (amended): for every configuration whose LeaseDuration is
positive and at most RenewDeadline, `ValidateKubeFedConfig` yields exactly
one violation on `spec.leaderElect.leaseDuration` — the InvalidValue of
the not-strictly-greater check.  (When LeaseDuration ≤ 0 the positivity
check contributes a second violation on the same path.) -/
theorem C3_leaseDuration_single (cfg : KubeFedConfig)
    (h0 : 0 < cfg.Spec.LeaderElect.LeaseDuration)
    (h : cfg.Spec.LeaderElect.LeaseDuration ≤ cfg.Spec.LeaderElect.RenewDeadline) :
    errsOn ["spec", "leaderElect", "leaseDuration"] (ValidateKubeFedConfig cfg)
      = [fieldInvalid ["spec", "leaderElect", "leaseDuration"]
          (toString cfg.Spec.LeaderElect.LeaseDuration)
          "leaseDuration must be greater than renewDeadline"] := by
  have e1 : (["spec", "scope"] : FieldPath) ≠ ["spec", "leaderElect", "leaseDuration"] := by
    decide
  have e2 : (["spec", "controllerDuration", "availableDelay"] : FieldPath)
      ≠ ["spec", "leaderElect", "leaseDuration"] := by decide
  have e3 : (["spec", "controllerDuration", "unavailableDelay"] : FieldPath)
      ≠ ["spec", "leaderElect", "leaseDuration"] := by decide
  have e5 : (["spec", "leaderElect", "renewDeadline"] : FieldPath)
      ≠ ["spec", "leaderElect", "leaseDuration"] := by decide
  have e6 : (["spec", "leaderElect", "retryPeriod"] : FieldPath)
      ≠ ["spec", "leaderElect", "leaseDuration"] := by decide
  have e9 : (["spec", "leaderElect", "resourceLock"] : FieldPath)
      ≠ ["spec", "leaderElect", "leaseDuration"] := by decide
  have e10a : FieldPath.child ["spec", "featureGates"] "name"
      ≠ ["spec", "leaderElect", "leaseDuration"] := by decide
  have e10b : FieldPath.child ["spec", "featureGates"] "configuration"
      ≠ ["spec", "leaderElect", "leaseDuration"] := by decide
  have e11 : (["spec", "clusterHealthCheck", "periodSeconds"] : FieldPath)
      ≠ ["spec", "leaderElect", "leaseDuration"] := by decide
  have e12 : (["spec", "clusterHealthCheck", "failureThreshold"] : FieldPath)
      ≠ ["spec", "leaderElect", "leaseDuration"] := by decide
  have e13 : (["spec", "clusterHealthCheck", "successThreshold"] : FieldPath)
      ≠ ["spec", "leaderElect", "leaseDuration"] := by decide
  have e14 : (["spec", "clusterHealthCheck", "timeoutSeconds"] : FieldPath)
      ≠ ["spec", "leaderElect", "leaseDuration"] := by decide
  have e15 : (["spec", "syncController", "adoptResources"] : FieldPath)
      ≠ ["spec", "leaderElect", "leaseDuration"] := by decide
  have j8 : errsOn ["spec", "leaderElect", "leaseDuration"]
      (if cfg.Spec.LeaderElect.RenewDeadline
          ≤ jitterProduct cfg.Spec.LeaderElect.RetryPeriod then
        [fieldInvalid ["spec", "leaderElect", "renewDeadline"]
          (toString cfg.Spec.LeaderElect.RenewDeadline)
          "renewDeadline must be greater than retryPeriod*JitterFactor"]
      else []) = [] :=
    errsOn_ite_fieldInvalid_ne _ _ (by decide)
  simp only [ValidateKubeFedConfig, newPath, FieldPath.child, List.cons_append,
    List.nil_append, errsOn_append]
  rw [errsOn_validateEnumStrings_ne e1, errsOn_validateGreaterThan0_ne e2,
    errsOn_validateGreaterThan0_ne e3, validateGreaterThan0_of_pos h0,
    errsOn_validateGreaterThan0_ne e5, errsOn_validateGreaterThan0_ne e6,
    if_pos h, errsOn_fieldInvalid_self, j8,
    errsOn_validateEnumStrings_ne e9,
    errsOn_featureGatesLoop_ne e10a e10b,
    errsOn_validateGreaterThan0_ne e11, errsOn_validateGreaterThan0_ne e12,
    errsOn_validateGreaterThan0_ne e13, errsOn_validateGreaterThan0_ne e14,
    errsOn_validateEnumStrings_ne e15]
  simp [errsOn]

/-- Witness for C3: the spec's concrete scenario LeaseDuration = 10s,
RenewDeadline = 10s, RetryPeriod = 2s (in nanoseconds). -/
theorem C3_leaseDuration_single_witness :
    errsOn ["spec", "leaderElect", "leaseDuration"] (ValidateKubeFedConfig c3cfg)
      = [fieldInvalid ["spec", "leaderElect", "leaseDuration"]
          (toString c3cfg.Spec.LeaderElect.LeaseDuration)
          "leaseDuration must be greater than renewDeadline"] :=
  C3_leaseDuration_single c3cfg (by decide) (by decide)

/-! ### Claim C6 -/

def c6cfg : KubeFedConfig :=
  ⟨"c", ⟨"Cluster", ⟨1, 1⟩, ⟨13, 0, -10, "configmaps"⟩,
    [], ⟨1, 1, 1, 1⟩, ⟨"Enabled"⟩⟩⟩

/-- Claim C6 counterexample: the claim says a violation appears on
`spec.leaderElect.renewDeadline` exactly when RenewDeadline ≤
RetryPeriod × JitterFactor.  With RenewDeadline = 0 and RetryPeriod = -10
the product is negative, the stated condition is false, yet a violation
(from the positivity check) sits on that very path. -/
theorem C6_counterexample :
    errsOn ["spec", "leaderElect", "renewDeadline"] (ValidateKubeFedConfig c6cfg) ≠ []
    ∧ ¬ (c6cfg.Spec.LeaderElect.RenewDeadline
          ≤ jitterProduct c6cfg.Spec.LeaderElect.RetryPeriod) := by
  decide

/-- Claim C6 (amended): `ValidateKubeFedConfig` emits a violation on
`spec.leaderElect.renewDeadline` exactly when RenewDeadline ≤
RetryPeriod × JitterFactor or RenewDeadline ≤ 0 (the positivity check
reports on the same path); for non-negative RetryPeriod this reduces to
the claim's condition. -/
theorem C6_renewDeadline_iff (cfg : KubeFedConfig) :
    errsOn ["spec", "leaderElect", "renewDeadline"] (ValidateKubeFedConfig cfg) ≠ []
      ↔ (cfg.Spec.LeaderElect.RenewDeadline
            ≤ jitterProduct cfg.Spec.LeaderElect.RetryPeriod
          ∨ cfg.Spec.LeaderElect.RenewDeadline ≤ 0) := by
  have e1 : (["spec", "scope"] : FieldPath) ≠ ["spec", "leaderElect", "renewDeadline"] := by
    decide
  have e2 : (["spec", "controllerDuration", "availableDelay"] : FieldPath)
      ≠ ["spec", "leaderElect", "renewDeadline"] := by decide
  have e3 : (["spec", "controllerDuration", "unavailableDelay"] : FieldPath)
      ≠ ["spec", "leaderElect", "renewDeadline"] := by decide
  have e4 : (["spec", "leaderElect", "leaseDuration"] : FieldPath)
      ≠ ["spec", "leaderElect", "renewDeadline"] := by decide
  have e6 : (["spec", "leaderElect", "retryPeriod"] : FieldPath)
      ≠ ["spec", "leaderElect", "renewDeadline"] := by decide
  have e9 : (["spec", "leaderElect", "resourceLock"] : FieldPath)
      ≠ ["spec", "leaderElect", "renewDeadline"] := by decide
  have e10a : FieldPath.child ["spec", "featureGates"] "name"
      ≠ ["spec", "leaderElect", "renewDeadline"] := by decide
  have e10b : FieldPath.child ["spec", "featureGates"] "configuration"
      ≠ ["spec", "leaderElect", "renewDeadline"] := by decide
  have e11 : (["spec", "clusterHealthCheck", "periodSeconds"] : FieldPath)
      ≠ ["spec", "leaderElect", "renewDeadline"] := by decide
  have e12 : (["spec", "clusterHealthCheck", "failureThreshold"] : FieldPath)
      ≠ ["spec", "leaderElect", "renewDeadline"] := by decide
  have e13 : (["spec", "clusterHealthCheck", "successThreshold"] : FieldPath)
      ≠ ["spec", "leaderElect", "renewDeadline"] := by decide
  have e14 : (["spec", "clusterHealthCheck", "timeoutSeconds"] : FieldPath)
      ≠ ["spec", "leaderElect", "renewDeadline"] := by decide
  have e15 : (["spec", "syncController", "adoptResources"] : FieldPath)
      ≠ ["spec", "leaderElect", "renewDeadline"] := by decide
  have j7 : errsOn ["spec", "leaderElect", "renewDeadline"]
      (if cfg.Spec.LeaderElect.LeaseDuration ≤ cfg.Spec.LeaderElect.RenewDeadline then
        [fieldInvalid ["spec", "leaderElect", "leaseDuration"]
          (toString cfg.Spec.LeaderElect.LeaseDuration)
          "leaseDuration must be greater than renewDeadline"]
      else []) = [] :=
    errsOn_ite_fieldInvalid_ne _ _ (by decide)
  simp only [ValidateKubeFedConfig, newPath, FieldPath.child, List.cons_append,
    List.nil_append, errsOn_append]
  rw [errsOn_validateEnumStrings_ne e1, errsOn_validateGreaterThan0_ne e2,
    errsOn_validateGreaterThan0_ne e3, errsOn_validateGreaterThan0_ne e4,
    errsOn_validateGreaterThan0_self, errsOn_validateGreaterThan0_ne e6,
    j7, errsOn_ite_fieldInvalid_self,
    errsOn_validateEnumStrings_ne e9,
    errsOn_featureGatesLoop_ne e10a e10b,
    errsOn_validateGreaterThan0_ne e11, errsOn_validateGreaterThan0_ne e12,
    errsOn_validateGreaterThan0_ne e13, errsOn_validateGreaterThan0_ne e14,
    errsOn_validateEnumStrings_ne e15]
  simp only [validateGreaterThan0, List.nil_append, List.append_nil]
  split <;> split <;> simp_all

end KubeFedValidation

namespace KubeFedValidation

/-! ### Claim C2 -/

/-- Claim C2: the FeatureGates sequence is validated in declared order
with an incrementally built set of seen names: an entry whose Name was
already seen yields exactly one `Duplicate` violation and skips the enum
checks of that entry's Name and Configuration; a first-seen entry has its
Name checked against the closed set of known feature identifiers and its
Configuration against Enabled/Disabled; and over the whole
`ValidateKubeFedConfig` output the number of `Duplicate` violations equals
the number of repeat occurrences, computed from the names alone (so the
first occurrence is never flagged and differing Configuration values are
irrelevant). -/
theorem C2_featureGates :
    (∀ (gp : FieldPath) (g : FeatureGatesConfig) (rest : List FeatureGatesConfig)
        (seen : List String), seen.contains g.Name = true →
        featureGatesLoop gp (g :: rest) seen =
          fieldDuplicate (gp.child "name") g.Name :: featureGatesLoop gp rest seen)
    ∧ (∀ (gp : FieldPath) (g : FeatureGatesConfig) (rest : List FeatureGatesConfig)
        (seen : List String), seen.contains g.Name = false →
        featureGatesLoop gp (g :: rest) seen =
          validateEnumStrings (gp.child "name") g.Name
              [PushReconciler, SchedulerPreferences, CrossClusterServiceDiscovery,
                FederatedIngress]
            ++ validateEnumStrings (gp.child "configuration") g.Configuration
                [ConfigurationEnabled, ConfigurationDisabled]
            ++ featureGatesLoop gp rest (g.Name :: seen))
    ∧ ∀ cfg : KubeFedConfig,
        (ValidateKubeFedConfig cfg).countP isDuplicateErr
          = repeatCount (cfg.Spec.FeatureGates.map FeatureGatesConfig.Name) [] := by
  refine ⟨?_, ?_, ?_⟩
  · intro gp g rest seen h
    have h' : g.Name ∈ seen := by simpa using h
    simp [featureGatesLoop, h']
  · intro gp g rest seen h
    have h' : g.Name ∉ seen := by simpa using h
    simp [featureGatesLoop, h']
  · intro cfg
    simp only [ValidateKubeFedConfig, List.countP_append,
      countP_dup_validateEnumStrings, countP_dup_validateGreaterThan0,
      countP_dup_ite_invalid, featureGatesLoop_dupCount]
    omega

/-- Witness for C2: a duplicate entry contributes the Duplicate violation
and skips its enum checks. -/
theorem C2_featureGates_witness :
    featureGatesLoop ["spec", "featureGates"] [⟨"X", "Enabled"⟩] ["X"]
      = fieldDuplicate (FieldPath.child ["spec", "featureGates"] "name") "X"
          :: featureGatesLoop ["spec", "featureGates"] [] ["X"] :=
  C2_featureGates.1 ["spec", "featureGates"] ⟨"X", "Enabled"⟩ [] ["X"] (by decide)

/-! ### Claim C7 -/

def c7cfgA : KubeFedConfig :=
  ⟨"a", ⟨"Cluster", ⟨1, 1⟩, ⟨13, 10, 2, "configmaps"⟩,
    [⟨"X", "Enabled"⟩, ⟨"X", "Disabled"⟩], ⟨1, 1, 1, 1⟩, ⟨"Enabled"⟩⟩⟩

def c7cfgB : KubeFedConfig :=
  ⟨"b", ⟨"Cluster", ⟨1, 1⟩, ⟨13, 10, 2, "configmaps"⟩,
    [⟨"PushReconciler", "Enabled"⟩, ⟨"X", "Enabled"⟩, ⟨"X", "Disabled"⟩],
    ⟨1, 1, 1, 1⟩, ⟨"Enabled"⟩⟩⟩

/-- Claim C7 counterexample: in cfgA the repeated entry is at position 1
of the sequence, in cfgB at position 2, yet both calls produce the very
same Duplicate violation, on path `spec.featureGates.name` with no
positional index segment — so the path cannot reference the position of
the repeated entry. -/
theorem C7_counterexample :
    (ValidateKubeFedConfig c7cfgA).filter isDuplicateErr
        = [fieldDuplicate ["spec", "featureGates", "name"] "X"]
    ∧ (ValidateKubeFedConfig c7cfgB).filter isDuplicateErr
        = [fieldDuplicate ["spec", "featureGates", "name"] "X"] := by
  decide

/-- Claim C7 (amended): every `Duplicate` violation of the feature-gate
loop — and of the whole `ValidateKubeFedConfig` — carries the fixed field
path `spec.featureGates.name`, with no positional index of the repeated
entry; the position is reflected only in the emission order of the
violation list. -/
theorem C7_duplicate_path :
    (∀ (gp : FieldPath) (gates : List FeatureGatesConfig) (seen : List String),
      ∀ e ∈ featureGatesLoop gp gates seen,
        e.type = ErrorType.duplicate → e.field = gp.child "name")
    ∧ ∀ cfg : KubeFedConfig, ∀ e ∈ ValidateKubeFedConfig cfg,
        e.type = ErrorType.duplicate → e.field = ["spec", "featureGates", "name"] := by
  constructor
  · exact featureGatesLoop_dup_field
  · intro cfg e he ht
    simp only [ValidateKubeFedConfig, newPath, FieldPath.child, List.cons_append,
      List.nil_append, List.mem_append] at he
    rcases he with (((((((((((((h | h) | h) | h) | h) | h) | h) | h) | h) | h)
      | h) | h) | h) | h) | h
    · have hd := validateEnumStrings_not_dup e h
      simp [isDuplicateErr, ht] at hd
    · have hd := validateGreaterThan0_not_dup e h
      simp [isDuplicateErr, ht] at hd
    · have hd := validateGreaterThan0_not_dup e h
      simp [isDuplicateErr, ht] at hd
    · have hd := validateGreaterThan0_not_dup e h
      simp [isDuplicateErr, ht] at hd
    · have hd := validateGreaterThan0_not_dup e h
      simp [isDuplicateErr, ht] at hd
    · have hd := validateGreaterThan0_not_dup e h
      simp [isDuplicateErr, ht] at hd
    · split at h
      · simp only [List.mem_singleton] at h
        subst h
        simp [fieldInvalid] at ht
      · simp at h
    · split at h
      · simp only [List.mem_singleton] at h
        subst h
        simp [fieldInvalid] at ht
      · simp at h
    · have hd := validateEnumStrings_not_dup e h
      simp [isDuplicateErr, ht] at hd
    · exact featureGatesLoop_dup_field _ _ _ e h ht
    · have hd := validateGreaterThan0_not_dup e h
      simp [isDuplicateErr, ht] at hd
    · have hd := validateGreaterThan0_not_dup e h
      simp [isDuplicateErr, ht] at hd
    · have hd := validateGreaterThan0_not_dup e h
      simp [isDuplicateErr, ht] at hd
    · have hd := validateGreaterThan0_not_dup e h
      simp [isDuplicateErr, ht] at hd
    · have hd := validateEnumStrings_not_dup e h
      simp [isDuplicateErr, ht] at hd

/-- Witness for C7 at a concrete duplicate entry. -/
theorem C7_duplicate_path_witness :
    (fieldDuplicate (FieldPath.child ["spec", "featureGates"] "name") "X").field
      = FieldPath.child ["spec", "featureGates"] "name" :=
  C7_duplicate_path.1 ["spec", "featureGates"] [⟨"X", "Enabled"⟩] ["X"]
    (fieldDuplicate (FieldPath.child ["spec", "featureGates"] "name") "X")
    (by decide) rfl

end KubeFedValidation

namespace KubeFedValidation

/-! ### Claim C8 -/

theorem toLowerStr_data (s : String) :
    (toLowerStr s).data = s.data.map Char.toLower := rfl

theorem toLowerStr_empty_iff (s : String) : toLowerStr s = "" ↔ s = "" := by
  cases s with
  | mk data =>
    cases data with
    | nil => exact ⟨fun _ => rfl, fun _ => rfl⟩
    | cons c cs =>
      constructor
      · intro h
        have hd : c.toLower :: cs.map Char.toLower = ([] : List Char) :=
          congrArg String.data h
        exact absurd hd (List.cons_ne_nil _ _)
      · intro h
        have hd : c :: cs = ([] : List Char) := congrArg String.data h
        exact absurd hd (List.cons_ne_nil _ _)

theorem errsOn_ite_ite_self {c1 c2 : Prop} [Decidable c1] [Decidable c2]
    {e1 e2 : FieldError} {q : FieldPath} (h1 : e1.field = q) (h2 : e2.field = q) :
    errsOn q (if c1 then [e1] else if c2 then [e2] else [])
      = if c1 then [e1] else if c2 then [e2] else [] := by
  split
  · exact errsOn_eq_self
      (by intro x hx; simp only [List.mem_singleton] at hx; subst hx; exact h1)
  · exact errsOn_ite_single_self h2

/-- The kind-field violations of `ValidateAPIResource` in isolation. -/
theorem errsOn_kind_ValidateAPIResource (obj : APIResource) (p : FieldPath)
    (k : String) :
    errsOn (p.child "kind") (ValidateAPIResource { obj with Kind := k } p)
      = (if k = "" then [fieldRequired (p.child "kind") ""]
        else if IsDNS1035Label (toLowerStr k) ≠ [] then
          [fieldInvalid (p.child "kind") k
            (String.intercalate "," (IsDNS1035Label (toLowerStr k)))]
        else []) := by
  have hg : p.child "group" ≠ p.child "kind" := FieldPath.child_ne p (by decide)
  have hv : p.child "version" ≠ p.child "kind" := FieldPath.child_ne p (by decide)
  have hpl : p.child "pluralName" ≠ p.child "kind" := FieldPath.child_ne p (by decide)
  have hsc : p.child "scope" ≠ p.child "kind" := FieldPath.child_ne p (by decide)
  have c1 : errsOn (p.child "kind")
      (if obj.Group ≠ "" then
        (if IsDNS1123Subdomain obj.Group ≠ [] then
          [fieldInvalid (p.child "group") obj.Group
            (String.intercalate "," (IsDNS1123Subdomain obj.Group))]
        else [])
      else []) = [] := by
    split
    · exact errsOn_ite_fieldInvalid_ne _ _ hg
    · rfl
  have c2 : errsOn (p.child "kind")
      (if obj.Version = "" then [fieldRequired (p.child "version") ""]
        else if IsDNS1035Label obj.Version ≠ [] then
          [fieldInvalid (p.child "version") obj.Version
            (String.intercalate "," (IsDNS1035Label obj.Version))]
        else []) = [] :=
    errsOn_ite_ite_ne (by simpa [fieldRequired] using hv)
      (by simpa [fieldInvalid] using hv)
  have c3 : errsOn (p.child "kind")
      (if k = "" then [fieldRequired (p.child "kind") ""]
        else if IsDNS1035Label (toLowerStr k) ≠ [] then
          [fieldInvalid (p.child "kind") k
            (String.intercalate "," (IsDNS1035Label (toLowerStr k)))]
        else [])
      = (if k = "" then [fieldRequired (p.child "kind") ""]
        else if IsDNS1035Label (toLowerStr k) ≠ [] then
          [fieldInvalid (p.child "kind") k
            (String.intercalate "," (IsDNS1035Label (toLowerStr k)))]
        else []) :=
    errsOn_ite_ite_self rfl rfl
  have c4 : errsOn (p.child "kind")
      (if obj.PluralName = "" then [fieldRequired (p.child "pluralName") ""]
        else if IsDNS1035Label obj.PluralName ≠ [] then
          [fieldInvalid (p.child "pluralName") obj.PluralName
            (String.intercalate "," (IsDNS1035Label obj.PluralName))]
        else []) = [] :=
    errsOn_ite_ite_ne (by simpa [fieldRequired] using hpl)
      (by simpa [fieldInvalid] using hpl)
  simp only [ValidateAPIResource, errsOn_append]
  rw [c1, c2, c3, c4, errsOn_validateEnumStrings_ne hsc]
  simp

def c8a : APIResource := ⟨"", "v1", "1A", "pods", "Cluster"⟩
def c8b : APIResource := ⟨"", "v1", "1a", "pods", "Cluster"⟩

/-- Claim C8 counterexample: `1A` and `1a` differ only in letter case and
both fail the lower-cased DNS-label check, but the two recorded kind-field
violations differ: each carries the original-case offending value. -/
theorem C8_counterexample :
    toLowerStr c8a.Kind = toLowerStr c8b.Kind
    ∧ errsOn (FieldPath.child ["t"] "kind") (ValidateAPIResource c8a ["t"])
        ≠ errsOn (FieldPath.child ["t"] "kind") (ValidateAPIResource c8b ["t"]) := by
  decide

/-- Claim C8 (amended): `ValidateAPIResource` applies the DNS-label check
to the lower-cased Kind, so two Kinds differing only in letter case
produce the same kind-field violations up to the recorded offending value
(type, path and message agree; the value keeps the original spelling) —
in particular they are equally valid; an empty Kind yields a `Required`
violation. -/
theorem C8_kind_case (obj : APIResource) (p : FieldPath) (k1 k2 : String)
    (h : toLowerStr k1 = toLowerStr k2) :
    (errsOn (p.child "kind")
        (ValidateAPIResource { obj with Kind := k1 } p)).map errShape
      = (errsOn (p.child "kind")
          (ValidateAPIResource { obj with Kind := k2 } p)).map errShape
    ∧ errsOn (p.child "kind") (ValidateAPIResource { obj with Kind := "" } p)
      = [fieldRequired (p.child "kind") ""] := by
  constructor
  · rw [errsOn_kind_ValidateAPIResource, errsOn_kind_ValidateAPIResource]
    by_cases h1 : k1 = ""
    · have h2 : k2 = "" := by
        rw [← toLowerStr_empty_iff, ← h, toLowerStr_empty_iff]
        exact h1
      rw [if_pos h1, if_pos h2]
    · have h2 : k2 ≠ "" := by
        intro hc
        apply h1
        rw [← toLowerStr_empty_iff, h, toLowerStr_empty_iff]
        exact hc
      rw [if_neg h1, if_neg h2, h]
      split
      · simp [errShape, fieldInvalid]
      · rfl
  · rw [errsOn_kind_ValidateAPIResource]
    simp

def c8obj : APIResource := ⟨"apps.example.com", "v1", "x", "deployments", "Cluster"⟩

/-- Witness for C8: `Deployment` and `deployment` produce the same
kind-field violation shapes (here: none). -/
theorem C8_kind_case_witness :
    (errsOn (FieldPath.child ["t"] "kind")
        (ValidateAPIResource { c8obj with Kind := "Deployment" } ["t"])).map errShape
      = (errsOn (FieldPath.child ["t"] "kind")
          (ValidateAPIResource { c8obj with Kind := "deployment" } ["t"])).map errShape :=
  (C8_kind_case c8obj ["t"] "Deployment" "deployment" (by decide)).1

end KubeFedValidation
